import Mathlib

/-!
# Verification of `target-position` (saltastroops/target-position)

A shallow embedding of `src/index.ts`.  The repository exposes a single
resolution function `targetPosition(targetName, resolvers)` returning a
promise, and a setter `setMirror(url)` for the module-global `BASE_URL`.

Modelling decisions:

* The promise outcome is the inductive `Outcome`: a rejection carrying a
  message (`Error` message in TS), a rejection by a propagated thrown
  exception (the `TypeError` raised when `xml2js` fails and the callback
  dereferences `root.Sesame` on `undefined`), fulfilment with `null`, or
  fulfilment with an `IPosition`.
* The module-global `BASE_URL` is passed to `targetPosition` explicitly:
  the TS code reads it exactly once, synchronously, while constructing the
  request URL.  A small event semantics (`Event`, `endpointAfter`) models
  the process-wide mutable setting and `setMirror`.
* `fetch` and the `xml2js` parse are external effects; they enter the
  model as function parameters.  `FetchResult` is either a transport
  failure (the fetch promise rejecting) or a response with an `ok` flag
  and a body text.  The XML parse is a function `String → Option SesameDoc`:
  `some doc` when the body is well-formed XML in which the
  `root.Sesame.Target[0]` path exists, `none` when the parse (or that
  dereference) throws — both behave identically in the TS code: the thrown
  error propagates through the promise chain into `.catch(reject)`.
* JS numbers are modelled by `ℚ`.  `parseFloat` is modelled on finite
  decimal/exponent literals (leading whitespace, optional sign, trailing
  junk ignored); the IEEE infinities fall outside the rational model.
  `NaN` results are modelled by `none`.
* `trim` and `toLowerCase` below model the JS `trim()` / `toLowerCase()`
  (they agree with JS on the ASCII resolver names and on ordinary
  whitespace, the cases exercised here).
* A missing (`null`/`undefined`) target name is `Option.none`; the TS
  guard `(targetName && targetName.trim()) || ""` then yields `""`.
-/

namespace TargetPosition

/-- A target position (`IPosition` in `src/index.ts`): right ascension and
declination in degrees, and the equinox as a float. -/
structure IPosition where
  rightAscension : ℚ
  declination : ℚ
  equinox : ℚ
  deriving Repr, DecidableEq

/-- The settlement of the promise returned by `targetPosition`. -/
inductive Outcome where
  /-- `reject(new Error(msg))`: rejection with the given message. -/
  | rejected (msg : String)
  /-- Rejection by a propagated thrown exception (no modelled message):
  the XML-parse/`TypeError` path that falls into `.catch(reject)`. -/
  | rejectedPropagated
  /-- `resolve(null)`: fulfilment with the no-result marker. -/
  | fulfilledNull
  /-- `resolve(position)`: fulfilment with a position. -/
  | fulfilledPosition (p : IPosition)
  deriving Repr, DecidableEq

/-- Whether an outcome is a rejection (as opposed to a fulfilment). -/
def Outcome.isRejection : Outcome → Bool
  | .rejected _ => true
  | .rejectedPropagated => true
  | .fulfilledNull => false
  | .fulfilledPosition _ => false

/-- The result of the `fetch` call: either the fetch promise rejects
(transport failure, carrying the underlying error's message), or a
response arrives with an `ok` flag and a body text (the body having been
read in full by `parseText`). -/
inductive FetchResult where
  | failure (err : String)
  | response (ok : Bool) (text : String)

/-- One `<Resolver>` entry of the parsed reply, as seen by the TS code:
the `jradeg` and `jdedeg` fields, each possibly absent (`undefined`). -/
structure ResolverEntry where
  jradeg : Option String
  jdedeg : Option String

/-- The parsed XML reply, as consumed by the TS code: the value of
`root.Sesame.Target[0].Resolver`, which is either absent (`undefined`,
modelled `none`) or a list of resolver entries. -/
structure SesameDoc where
  resolver : Option (List ResolverEntry)

/-- `SUPPORTED_RESOLVERS` from `src/index.ts`: the supported name
resolver services, in lower case. -/
def SUPPORTED_RESOLVERS : List String := ["ned", "simbad", "vizier"]

/-- The default value of the `resolvers` parameter of `targetPosition`. -/
def defaultResolvers : List String := ["Simbad", "NED", "VizieR"]

/-- JS `String.prototype.trim`: remove whitespace from both ends. -/
def trim (s : String) : String :=
  ⟨((s.data.dropWhile Char.isWhitespace).reverse.dropWhile
      Char.isWhitespace).reverse⟩

/-- JS `String.prototype.toLowerCase` (ASCII case mapping, which covers
the resolver names this code compares). -/
def toLowerCase (s : String) : String :=
  ⟨s.data.map Char.toLower⟩

/-- `const trimmedTargetName = (targetName && targetName.trim()) || ""`:
a missing (`null`/`undefined`) or empty name gives `""`, otherwise the
trimmed name (which `|| ""` leaves unchanged, `""` being mapped to `""`). -/
def trimmedName (targetName : Option String) : String :=
  (targetName.map trim).getD ""

/-- `resolvers.filter(r => SUPPORTED_RESOLVERS.indexOf(r.toLowerCase()) === -1)`:
the caller-supplied entries (original case) that are not supported. -/
def unsupportedOf (resolvers : List String) : List String :=
  resolvers.filter fun resolver => ¬ SUPPORTED_RESOLVERS.contains (toLowerCase resolver)

/-- The rejection message for unsupported resolvers, built exactly as in
`src/index.ts` (template literal with singular/plural choice and
`join(", ")`). -/
def unsupportedMessage (unsupportedResolvers : List String) : String :=
  "The following resolver"
    ++ (if unsupportedResolvers.length ≠ 1 then "s are" else " is")
    ++ " not supported: "
    ++ String.intercalate ", " unsupportedResolvers
    ++ ". The available resolvers are Simbad, NED and VizieR."

/-- The `switch` in `src/index.ts` mapping a lower-cased resolver name to
its single-letter code (default branch: `""`). -/
def resolverLetter (resolver : String) : String :=
  if resolver = "simbad" then "S"
  else if resolver = "ned" then "N"
  else if resolver = "vizier" then "V"
  else ""

/-- `lowerCaseResolvers.map(...).join("")`: the resolver-code string. -/
def resolverCode (lowerCaseResolvers : List String) : String :=
  String.join (lowerCaseResolvers.map resolverLetter)

/-- Value of a decimal digit character. -/
def digitVal (c : Char) : Nat := c.toNat - '0'.toNat

/-- The natural number denoted by a string of decimal digits. -/
def digitsToNat (ds : List Char) : Nat :=
  ds.foldl (fun acc c => 10 * acc + digitVal c) 0

/-- JS `parseFloat`, modelled over `ℚ`: skip leading whitespace, read an
optional sign, then the longest prefix of the form
`digits [ "." digits ] [ ("e"|"E") [sign] digits ]` or
`"." digits [exponent]`; any trailing junk is ignored.  If no integer or
fractional digit is read the result is `NaN`, modelled `none`.  (The
`Infinity` literal, not representable in `ℚ`, is outside the model; the
Sesame service emits finite decimal degrees.) -/
def parseFloat (s : String) : Option ℚ :=
  let cs := s.data.dropWhile Char.isWhitespace
  let neg : Bool := cs.head? = some '-'
  let cs := if cs.head? = some '-' ∨ cs.head? = some '+' then cs.tail else cs
  let intDigits := cs.takeWhile Char.isDigit
  let cs := cs.drop intDigits.length
  let fracDigits := if cs.head? = some '.' then cs.tail.takeWhile Char.isDigit else []
  let cs := if cs.head? = some '.' then cs.tail.drop fracDigits.length else cs
  if intDigits.isEmpty ∧ fracDigits.isEmpty then none
  else
    let mantissa : Nat :=
      digitsToNat intDigits * 10 ^ fracDigits.length + digitsToNat fracDigits
    let signedMantissa : Int :=
      if neg then -(Int.ofNat mantissa) else Int.ofNat mantissa
    let expPart : Bool × List Char :=
      if cs.head? = some 'e' ∨ cs.head? = some 'E' then
        let rest := cs.tail
        let expNeg : Bool := rest.head? = some '-'
        let rest := if rest.head? = some '-' ∨ rest.head? = some '+' then rest.tail else rest
        (expNeg, rest.takeWhile Char.isDigit)
      else (false, [])
    let e := digitsToNat expPart.2
    if expPart.1 then some (mkRat signedMantissa (10 ^ (fracDigits.length + e)))
    else some (mkRat (signedMantissa * Int.ofNat (10 ^ e)) (10 ^ fracDigits.length))

/-- `parseFloat` applied to a possibly absent field: `parseFloat(undefined)`
is `NaN` (`String(undefined) = "undefined"` has no numeric prefix). -/
def parseFloatOpt : Option String → Option ℚ
  | none => none
  | some s => parseFloat s

/-- The UTF-8 bytes of a code point (as naturals below 256). -/
def utf8Bytes (n : Nat) : List Nat :=
  if n < 0x80 then [n]
  else if n < 0x800 then [0xC0 + n / 64, 0x80 + n % 64]
  else if n < 0x10000 then [0xE0 + n / 4096, 0x80 + (n / 64) % 64, 0x80 + n % 64]
  else [0xF0 + n / 262144, 0x80 + (n / 4096) % 64, 0x80 + (n / 64) % 64, 0x80 + n % 64]

/-- An upper-case hexadecimal digit. -/
def hexChar (n : Nat) : Char :=
  if n < 10 then Char.ofNat ('0'.toNat + n) else Char.ofNat ('A'.toNat + n - 10)

/-- The characters JS `encodeURIComponent` leaves unescaped. -/
def isUnreservedURIChar (c : Char) : Bool :=
  c.isAlpha ∨ c.isDigit ∨ c ∈ ['-', '_', '.', '!', '~', '*', '\'', '(', ')']

/-- One character's contribution to the percent-encoding. -/
def percentEncodeChar (c : Char) : String :=
  if isUnreservedURIChar c then String.singleton c
  else String.join ((utf8Bytes c.toNat).map fun b =>
    "%" ++ String.singleton (hexChar (b / 16)) ++ String.singleton (hexChar (b % 16)))

/-- JS `encodeURIComponent`: percent-encode every character outside the
unreserved set, byte by byte of its UTF-8 encoding, upper-case hex. -/
def encodeURIComponent (s : String) : String :=
  String.join (s.data.map percentEncodeChar)

/-- The request URL, built exactly as in `src/index.ts`:
the base URL, then the `-ox` segment between slashes, then the code
string, then `?`, then the encoded name — the code
string from the lower-cased resolvers, the raw (untrimmed, original-case)
target name percent-encoded.  (On the reachable path the target name is
present; a missing name is rejected before the URL is built.) -/
def buildUrl (baseUrl : String) (targetName : Option String)
    (resolvers : List String) : String :=
  baseUrl ++ "/-ox/" ++ resolverCode (resolvers.map toLowerCase)
    ++ "?" ++ encodeURIComponent (targetName.getD "")

/-- The response phase of `targetPosition`: classify the fetch result,
reject on non-success status with the body text, otherwise parse the XML
and extract the first resolver entry, as in `src/index.ts` lines 136–168. -/
def handleFetch (res : FetchResult)
    (parseXml : String → Option SesameDoc) : Outcome :=
  match res with
  | .failure err => .rejected err
  | .response ok text =>
    if ok = false then .rejected text
    else
      match parseXml text with
      | none => .rejectedPropagated
      | some root =>
        match root.resolver with
        | none => .fulfilledNull
        | some [] => .fulfilledNull
        | some (first :: _) =>
          match parseFloatOpt first.jradeg, parseFloatOpt first.jdedeg with
          | some ra, some dec =>
            .fulfilledPosition { declination := dec, equinox := 2000, rightAscension := ra }
          | some _, none => .fulfilledNull
          | none, _ => .fulfilledNull

/-- `targetPosition` from `src/index.ts`: validation in source order
(missing name, unsupported resolvers, empty list, duplicates), then the
URL is constructed synchronously and the single GET is issued. -/
def targetPosition (baseUrl : String) (targetName : Option String)
    (resolvers : List String)
    (fetch : String → FetchResult)
    (parseXml : String → Option SesameDoc) : Outcome :=
  let trimmedTargetName := trimmedName targetName
  if trimmedTargetName = "" then
    .rejected "The target name is missing."
  else
    let unsupportedResolvers := unsupportedOf resolvers
    if 0 < unsupportedResolvers.length then
      .rejected (unsupportedMessage unsupportedResolvers)
    else
      let lowerCaseResolvers := resolvers.map toLowerCase
      if lowerCaseResolvers.length = 0 then
        .rejected "At least one resolver must be given."
      else if lowerCaseResolvers.dedup.length ≠ lowerCaseResolvers.length then
        .rejected "A resolver may be used only once in the array of resolvers."
      else
        handleFetch (fetch (buildUrl baseUrl targetName resolvers)) parseXml

/-- `setMirror` from `src/index.ts`, as a transition on the module-global
`BASE_URL`: it replaces the stored endpoint with exactly the supplied
string, ignoring the previous value and validating nothing. -/
def setMirror (url : String) (_state : String) : String := url

/-- An observable event on the module-global `BASE_URL`: a `setMirror`
call, or a `targetPosition` call (which only reads the setting). -/
inductive Event where
  | setMirrorCall (url : String)
  | resolveCall (targetName : Option String) (resolvers : List String)
  deriving DecidableEq

/-- How one event transforms the stored endpoint: `setMirror` overwrites
it; `targetPosition` contains no assignment to `BASE_URL`. -/
def stepEndpoint (state : String) : Event → String
  | .setMirrorCall url => setMirror url state
  | .resolveCall _ _ => state

/-- The endpoint after a sequence of events, starting from `init`. -/
def endpointAfter (init : String) (events : List Event) : String :=
  events.foldl stepEndpoint init

/-! ## Helper lemmas -/

/-- When all four validation checks pass, `targetPosition` reaches the
fetch: it is the response phase applied to the fetch of the built URL. -/
theorem targetPosition_of_valid (baseUrl : String) (tn : Option String)
    (rs : List String)
    (h1 : trimmedName tn ≠ "") (h2 : unsupportedOf rs = [])
    (h3 : rs ≠ []) (h4 : (rs.map toLowerCase).Nodup)
    (fetch : String → FetchResult) (parseXml : String → Option SesameDoc) :
    targetPosition baseUrl tn rs fetch parseXml
      = handleFetch (fetch (buildUrl baseUrl tn rs)) parseXml := by
  simp [targetPosition, h1, h2, h3, List.dedup_eq_self.mpr h4]

/-- Splitting `endpointAfter` over an appended event list. -/
theorem endpointAfter_append (init : String) (l₁ l₂ : List Event) :
    endpointAfter init (l₁ ++ l₂) = endpointAfter (endpointAfter init l₁) l₂ :=
  List.foldl_append _ _ _ _

/-- A stretch of events containing no `setMirror` call leaves the
endpoint untouched. -/
theorem endpointAfter_of_no_setMirror (s : String) (events : List Event)
    (h : ∀ e ∈ events, ∀ v, e ≠ Event.setMirrorCall v) :
    endpointAfter s events = s := by
  induction events with
  | nil => rfl
  | cons e rest ih =>
    cases e with
    | setMirrorCall v => exact absurd rfl (h _ (List.mem_cons_self _ _) v)
    | resolveCall tn rs =>
      exact (ih fun e he v => h e (List.mem_cons_of_mem _ he) v)

/-! ## Claims -/

/-- C1: for every call in which validation passes and the service responds
with a success status whose body parses to a reply whose `Resolver` list
has a first entry with numeric `jradeg` and `jdedeg`, the promise fulfils
with a Position whose right ascension and declination are the parsed
values of that first entry (later entries are ignored) and whose equinox
is 2000. -/
theorem targetPosition_fulfils_first_entry_position
    (baseUrl : String) (tn : Option String) (rs : List String)
    (fetch : String → FetchResult) (parseXml : String → Option SesameDoc)
    (text : String) (doc : SesameDoc) (entry : ResolverEntry)
    (rest : List ResolverEntry) (ra dec : ℚ)
    (h1 : trimmedName tn ≠ "") (h2 : unsupportedOf rs = [])
    (h3 : rs ≠ []) (h4 : (rs.map toLowerCase).Nodup)
    (hfetch : fetch (buildUrl baseUrl tn rs) = FetchResult.response true text)
    (hparse : parseXml text = some doc)
    (hres : doc.resolver = some (entry :: rest))
    (hra : parseFloatOpt entry.jradeg = some ra)
    (hdec : parseFloatOpt entry.jdedeg = some dec) :
    targetPosition baseUrl tn rs fetch parseXml
      = Outcome.fulfilledPosition
          { rightAscension := ra, declination := dec, equinox := 2000 } := by
  rw [targetPosition_of_valid baseUrl tn rs h1 h2 h3 h4, hfetch]
  simp [handleFetch, hparse, hres, hra, hdec]

theorem targetPosition_fulfils_first_entry_position_witness :
    targetPosition "http://mock.saao.ac.za/" (some "A") ["Simbad"]
        (fun _ => FetchResult.response true "body")
        (fun _ => some ⟨some [⟨some "1.5", some "-2.5"⟩, ⟨some "9", some "9"⟩]⟩)
      = Outcome.fulfilledPosition
          { rightAscension := mkRat 3 2, declination := mkRat (-5) 2,
            equinox := 2000 } :=
  targetPosition_fulfils_first_entry_position
    "http://mock.saao.ac.za/" (some "A") ["Simbad"] _ _ "body"
    ⟨some [⟨some "1.5", some "-2.5"⟩, ⟨some "9", some "9"⟩]⟩
    ⟨some "1.5", some "-2.5"⟩ [⟨some "9", some "9"⟩] (mkRat 3 2) (mkRat (-5) 2)
    (by decide) (by decide) (by decide) (by decide) rfl rfl rfl
    (by decide) (by decide)

/-- C2: for every call that passes validation, the single GET request URL
is the current endpoint, then the `-ox` segment between slashes, then the
concatenation in selection
order of the single-letter codes of the lower-cased resolver names
(simbad→S, ned→N, vizier→V; default list giving `SNV`), then `?`, then
the percent-encoding of the raw, untrimmed, original-case target name. -/
theorem targetPosition_request_url
    (baseUrl : String) (tn : Option String) (rs : List String)
    (h1 : trimmedName tn ≠ "") (h2 : unsupportedOf rs = [])
    (h3 : rs ≠ []) (h4 : (rs.map toLowerCase).Nodup) :
    (∀ fetch parseXml,
        targetPosition baseUrl tn rs fetch parseXml
          = handleFetch
              (fetch (baseUrl ++ "/-ox/"
                ++ String.join ((rs.map toLowerCase).map resolverLetter)
                ++ "?" ++ encodeURIComponent (tn.getD ""))) parseXml)
      ∧ resolverLetter "simbad" = "S"
      ∧ resolverLetter "ned" = "N"
      ∧ resolverLetter "vizier" = "V"
      ∧ resolverCode (defaultResolvers.map toLowerCase) = "SNV" := by
  refine ⟨fun fetch parseXml => ?_, by decide, by decide, by decide, by decide⟩
  rw [targetPosition_of_valid baseUrl tn rs h1 h2 h3 h4]
  rfl

theorem targetPosition_request_url_witness :
    targetPosition "http://mock.saao.ac.za/" (some " A Nice Target ")
        ["VizieR", "Simbad"] (fun _ => FetchResult.failure "down") (fun _ => none)
      = handleFetch
          ((fun _ => FetchResult.failure "down")
            ("http://mock.saao.ac.za/" ++ "/-ox/"
              ++ String.join (((["VizieR", "Simbad"] : List String).map
                    toLowerCase).map resolverLetter)
              ++ "?" ++ encodeURIComponent
                    ((some " A Nice Target " : Option String).getD "")))
          (fun _ => none) :=
  (targetPosition_request_url "http://mock.saao.ac.za/" (some " A Nice Target ")
    ["VizieR", "Simbad"] (by decide) (by decide) (by decide) (by decide)).1
    (fun _ => FetchResult.failure "down") (fun _ => none)

/-- C4: for every call that passes validation and receives a response
with a non-success status, the promise rejects with a failure whose
message is the full response body text. -/
theorem targetPosition_rejects_with_body_on_error_status
    (baseUrl : String) (tn : Option String) (rs : List String)
    (fetch : String → FetchResult) (parseXml : String → Option SesameDoc)
    (text : String)
    (h1 : trimmedName tn ≠ "") (h2 : unsupportedOf rs = [])
    (h3 : rs ≠ []) (h4 : (rs.map toLowerCase).Nodup)
    (hfetch : fetch (buildUrl baseUrl tn rs) = FetchResult.response false text) :
    targetPosition baseUrl tn rs fetch parseXml = Outcome.rejected text := by
  rw [targetPosition_of_valid baseUrl tn rs h1 h2 h3 h4, hfetch]
  rfl

theorem targetPosition_rejects_with_body_on_error_status_witness :
    targetPosition "http://mock.saao.ac.za/" (some "A") ["Simbad"]
        (fun _ => FetchResult.response false "Sesame is not happy.")
        (fun _ => none)
      = Outcome.rejected "Sesame is not happy." :=
  targetPosition_rejects_with_body_on_error_status
    "http://mock.saao.ac.za/" (some "A") ["Simbad"] _ _ "Sesame is not happy."
    (by decide) (by decide) (by decide) (by decide) rfl

/-- C5: for every target name whose trimmed value is empty — the absent
(`null`/`undefined`) name, the empty string and whitespace-only strings
all satisfy this — `targetPosition` rejects with the message identifying
the missing target name, for every endpoint, resolver list, fetch
behaviour and parser: no network access can influence the outcome. -/
theorem targetPosition_rejects_missing_name
    (tn : Option String) (h : trimmedName tn = "") :
    (∀ baseUrl rs fetch parseXml,
        targetPosition baseUrl tn rs fetch parseXml
          = Outcome.rejected "The target name is missing.")
      ∧ trimmedName none = ""
      ∧ trimmedName (some "") = ""
      ∧ trimmedName (some " \t  \n\n ") = "" := by
  exact ⟨fun baseUrl rs fetch parseXml => by simp [targetPosition, h],
    rfl, rfl, by decide⟩

theorem targetPosition_rejects_missing_name_witness :
    targetPosition "http://mock.saao.ac.za/" (some " \t  \n\n ") ["Simbad"]
        (fun _ => FetchResult.failure "down") (fun _ => none)
      = Outcome.rejected "The target name is missing." :=
  (targetPosition_rejects_missing_name (some " \t  \n\n ") (by decide)).1
    "http://mock.saao.ac.za/" ["Simbad"]
    (fun _ => FetchResult.failure "down") (fun _ => none)

/-- C3: for every call in which the service responds with a success
status and a body that parses to a reply document, the promise fulfils
with the no-result marker (`null`) — a fulfilment, never a rejection —
exactly when the reply's `Resolver` list is absent or empty, or the first
entry's `jradeg` or `jdedeg` fails to parse as a number. -/
theorem targetPosition_null_iff_no_usable_entry
    (baseUrl : String) (tn : Option String) (rs : List String)
    (fetch : String → FetchResult) (parseXml : String → Option SesameDoc)
    (text : String) (doc : SesameDoc)
    (h1 : trimmedName tn ≠ "") (h2 : unsupportedOf rs = [])
    (h3 : rs ≠ []) (h4 : (rs.map toLowerCase).Nodup)
    (hfetch : fetch (buildUrl baseUrl tn rs) = FetchResult.response true text)
    (hparse : parseXml text = some doc) :
    (targetPosition baseUrl tn rs fetch parseXml = Outcome.fulfilledNull
        ↔ doc.resolver = none ∨ doc.resolver = some []
          ∨ ∃ entry rest, doc.resolver = some (entry :: rest)
              ∧ (parseFloatOpt entry.jradeg = none
                ∨ parseFloatOpt entry.jdedeg = none))
      ∧ (targetPosition baseUrl tn rs fetch parseXml).isRejection = false := by
  rw [targetPosition_of_valid baseUrl tn rs h1 h2 h3 h4, hfetch]
  obtain ⟨res⟩ := doc
  rcases res with _ | (_ | ⟨entry, rest⟩)
  · simp [handleFetch, hparse, Outcome.isRejection]
  · simp [handleFetch, hparse, Outcome.isRejection]
  · rcases hra : parseFloatOpt entry.jradeg with _ | ra
    · simp [handleFetch, hparse, hra, Outcome.isRejection]
    · rcases hdec : parseFloatOpt entry.jdedeg with _ | dec
      · simp [handleFetch, hparse, hra, hdec, Outcome.isRejection]
      · simp [handleFetch, hparse, hra, hdec, Outcome.isRejection]

theorem targetPosition_null_iff_no_usable_entry_witness :
    targetPosition "http://mock.saao.ac.za/" (some "HIP123456") ["VizieR"]
        (fun _ => FetchResult.response true "body") (fun _ => some ⟨none⟩)
      = Outcome.fulfilledNull :=
  (targetPosition_null_iff_no_usable_entry "http://mock.saao.ac.za/"
    (some "HIP123456") ["VizieR"] _ _ "body" ⟨none⟩
    (by decide) (by decide) (by decide) (by decide) rfl rfl).1.mpr
    (Or.inl rfl)

/-- C6: for every resolver list containing entries outside
{ned, simbad, vizier} (case-insensitively), a call with a present target
name rejects, for every endpoint, fetch behaviour and parser (hence
before any network access), naming exactly the unsupported entries with
singular phrasing for one entry, plural phrasing for several, joined by
a comma and a space. -/
theorem targetPosition_rejects_unsupported_resolvers
    (tn : Option String) (rs : List String)
    (h1 : trimmedName tn ≠ "") (hu : unsupportedOf rs ≠ []) :
    ∀ baseUrl fetch parseXml,
      targetPosition baseUrl tn rs fetch parseXml
        = Outcome.rejected
            ("The following resolver"
              ++ (if (unsupportedOf rs).length ≠ 1 then "s are" else " is")
              ++ " not supported: "
              ++ String.intercalate ", " (unsupportedOf rs)
              ++ ". The available resolvers are Simbad, NED and VizieR.") := by
  intro baseUrl fetch parseXml
  have hlen : 0 < (unsupportedOf rs).length := List.length_pos.mpr hu
  simp [targetPosition, h1, hlen, unsupportedMessage]

theorem targetPosition_rejects_unsupported_resolvers_witness :
    targetPosition "http://mock.saao.ac.za/" (some "A")
        ["Simbad", "Xft56", "NED", "A56tyu"]
        (fun _ => FetchResult.failure "down") (fun _ => none)
      = Outcome.rejected
          ("The following resolver"
            ++ (if (unsupportedOf ["Simbad", "Xft56", "NED", "A56tyu"]).length ≠ 1
                then "s are" else " is")
            ++ " not supported: "
            ++ String.intercalate ", " (unsupportedOf ["Simbad", "Xft56", "NED", "A56tyu"])
            ++ ". The available resolvers are Simbad, NED and VizieR.") :=
  targetPosition_rejects_unsupported_resolvers (some "A")
    ["Simbad", "Xft56", "NED", "A56tyu"] (by decide) (by decide)
    "http://mock.saao.ac.za/" (fun _ => FetchResult.failure "down") (fun _ => none)

/-- C7: for every resolver list with only supported names in which some
name appears more than once after lower-casing, a call with a present
target name rejects, for every endpoint, fetch behaviour and parser
(hence before any network access), stating a resolver may be used only
once. -/
theorem targetPosition_rejects_duplicate_resolvers
    (tn : Option String) (rs : List String)
    (h1 : trimmedName tn ≠ "") (h2 : unsupportedOf rs = [])
    (hdup : ¬ (rs.map toLowerCase).Nodup) :
    ∀ baseUrl fetch parseXml,
      targetPosition baseUrl tn rs fetch parseXml
        = Outcome.rejected
            "A resolver may be used only once in the array of resolvers." := by
  intro baseUrl fetch parseXml
  have hne : rs ≠ [] := by rintro rfl; exact hdup (by simp)
  have hlen : (rs.map toLowerCase).dedup.length ≠ rs.length := by
    intro he
    have he' : (rs.map toLowerCase).dedup.length = (rs.map toLowerCase).length :=
      he.trans (List.length_map rs toLowerCase).symm
    exact hdup (((rs.map toLowerCase).dedup_sublist.eq_of_length he')
      ▸ (rs.map toLowerCase).nodup_dedup)
  simp [targetPosition, h1, h2, hne, hlen]

theorem targetPosition_rejects_duplicate_resolvers_witness :
    targetPosition "http://mock.saao.ac.za/" (some "A")
        ["Simbad", "NED", "simbad", "VizieR"]
        (fun _ => FetchResult.failure "down") (fun _ => none)
      = Outcome.rejected
          "A resolver may be used only once in the array of resolvers." :=
  targetPosition_rejects_duplicate_resolvers (some "A")
    ["Simbad", "NED", "simbad", "VizieR"] (by decide) (by decide) (by decide)
    "http://mock.saao.ac.za/" (fun _ => FetchResult.failure "down") (fun _ => none)

/-- C9: for every call in which validation passes and the service
responds with a success status but a body on which the XML parse (or the
subsequent dereference of the reply structure) fails, the operation
settles as a rejection — the propagated thrown error — and never fulfils
with a Position or the no-result marker. -/
theorem targetPosition_rejects_on_xml_parse_failure
    (baseUrl : String) (tn : Option String) (rs : List String)
    (fetch : String → FetchResult) (parseXml : String → Option SesameDoc)
    (text : String)
    (h1 : trimmedName tn ≠ "") (h2 : unsupportedOf rs = [])
    (h3 : rs ≠ []) (h4 : (rs.map toLowerCase).Nodup)
    (hfetch : fetch (buildUrl baseUrl tn rs) = FetchResult.response true text)
    (hparse : parseXml text = none) :
    targetPosition baseUrl tn rs fetch parseXml = Outcome.rejectedPropagated
      ∧ Outcome.rejectedPropagated.isRejection = true := by
  rw [targetPosition_of_valid baseUrl tn rs h1 h2 h3 h4, hfetch]
  exact ⟨by simp [handleFetch, hparse], rfl⟩

theorem targetPosition_rejects_on_xml_parse_failure_witness :
    targetPosition "http://mock.saao.ac.za/" (some "A") ["Simbad"]
        (fun _ => FetchResult.response true "not xml") (fun _ => none)
      = Outcome.rejectedPropagated
      ∧ Outcome.rejectedPropagated.isRejection = true :=
  targetPosition_rejects_on_xml_parse_failure "http://mock.saao.ac.za/"
    (some "A") ["Simbad"] _ _ "not xml"
    (by decide) (by decide) (by decide) (by decide) rfl rfl

/-- C8: the request URL is built from the endpoint value current at the
moment the call constructs it: after a `setMirror u` not followed by
further `setMirror` calls, a resolution call that passes validation
behaves as the response phase at the URL built from `u`, whatever the
earlier history was; and `setMirror` replaces the stored endpoint with
exactly the supplied string, whatever it is (no validation of its
shape). -/
theorem targetPosition_uses_endpoint_at_call_time
    (init u : String) (pre post : List Event)
    (hpost : ∀ e ∈ post, ∀ v, e ≠ Event.setMirrorCall v)
    (tn : Option String) (rs : List String)
    (h1 : trimmedName tn ≠ "") (h2 : unsupportedOf rs = [])
    (h3 : rs ≠ []) (h4 : (rs.map toLowerCase).Nodup) :
    (∀ s, setMirror u s = u)
      ∧ endpointAfter init (pre ++ Event.setMirrorCall u :: post) = u
      ∧ ∀ fetch parseXml,
          targetPosition (endpointAfter init (pre ++ Event.setMirrorCall u :: post))
              tn rs fetch parseXml
            = handleFetch (fetch (buildUrl u tn rs)) parseXml := by
  have hend : endpointAfter init (pre ++ Event.setMirrorCall u :: post) = u := by
    rw [show Event.setMirrorCall u :: post
          = [Event.setMirrorCall u] ++ post from rfl,
      ← List.append_assoc, endpointAfter_append,
      endpointAfter_of_no_setMirror _ post hpost, endpointAfter_append]
    rfl
  exact ⟨fun s => rfl, hend, fun fetch parseXml => by
    rw [hend]
    exact targetPosition_of_valid u tn rs h1 h2 h3 h4 fetch parseXml⟩

theorem targetPosition_uses_endpoint_at_call_time_witness :
    targetPosition
        (endpointAfter "https://cdsweb.u-strasbg.fr/cgi-bin/nph-sesame/"
          ([Event.setMirrorCall "http://old.example/"]
            ++ Event.setMirrorCall "http://mock.saao.ac.za/"
              :: [Event.resolveCall none []]))
        (some "A") ["Simbad"]
        (fun _ => FetchResult.failure "down") (fun _ => none)
      = handleFetch
          ((fun _ => FetchResult.failure "down")
            (buildUrl "http://mock.saao.ac.za/" (some "A") ["Simbad"]))
          (fun _ => none) :=
  (targetPosition_uses_endpoint_at_call_time
    "https://cdsweb.u-strasbg.fr/cgi-bin/nph-sesame/" "http://mock.saao.ac.za/"
    [Event.setMirrorCall "http://old.example/"] [Event.resolveCall none []]
    (by
      intro e he v
      simp only [List.mem_singleton] at he
      subst he
      intro hc
      exact Event.noConfusion hc)
    (some "A") ["Simbad"]
    (by decide) (by decide) (by decide) (by decide)).2.2
    (fun _ => FetchResult.failure "down") (fun _ => none)

/-- C10: a `targetPosition` call never changes the process-wide endpoint
setting: after any event history, appending a resolution call (with any
inputs; in the embedding the call only reads the endpoint and returns an
`Outcome`, so no service response or failure can touch the setting)
leaves the endpoint equal to what it was, while `setMirror` — the only
state-changing operation, the endpoint string being the whole mutable
state — replaces it with its argument. -/
theorem targetPosition_preserves_endpoint :
    (∀ init events tn rs,
        endpointAfter init (events ++ [Event.resolveCall tn rs])
          = endpointAfter init events)
      ∧ ∀ url s, setMirror url s = url := by
  refine ⟨fun init events tn rs => ?_, fun url s => rfl⟩
  rw [endpointAfter_append]
  rfl

end TargetPosition
